import Mathlib

/-!
Verification of the solar-panel monitoring backend.

This file gives a shallow embedding, in Lean 4, of the parts of the
repository that the verified properties talk about:

* `backend/app/services/model_service.py` — the `TelemetryModelService`
  (scaler fitting, windowed sequence construction, power prediction,
  error-based anomaly detection);
* `backend/app/api/telemetry.py` — the `/telemetry/predict` endpoint;
* `backend/app/api/panels.py` — the panel CRUD endpoints (404 behaviour,
  soft delete, listing);
* `backend/app/api/mission_images.py` — image deletion (best-effort
  storage cleanup) and image analysis (inspection-result writing);
* `backend/app/services/cv_service.py` — the class-name mapping of the
  YOLO detector;
* `ml/solar_telemetry_model.py` — the training-time feature scaler.

Modelling conventions:

* Python floats are idealised as exact rationals (`ℚ`); Python's
  `round(x, nd)` is modelled as exact round-half-to-even on the rational
  value, which is its behaviour on exactly representable inputs.
* `sklearn.preprocessing.StandardScaler` stores the per-column mean and
  (population) variance; its `scale_` is the square root of the variance
  (with the zero-variance column replaced by 1, as sklearn does).  The
  square root itself is irrational, so the embedding is parametrised by a
  function `sqrtFn : ℚ → ℚ` standing for the floating-point square root;
  every concrete instantiation below agrees with the true square root on
  every variance it is actually applied to.
* The pre-trained LSTM is an arbitrary function from a scaled input
  window to a scaled output, passed as a parameter `m`.
* Database tables are lists of records; HTTP outcomes are an explicit
  sum of a success payload and an error status code; the raising of a
  Python exception out of a service method is an `Except.error`.
-/

/-- HTTP outcome of an endpoint: success payload or `HTTPException(status_code)`. -/
inductive ApiOutcome (α : Type) where
  | ok : α → ApiOutcome α
  | httpError : ℕ → ApiOutcome α
deriving DecidableEq

/-- Python `abs` on a rational. -/
def absq (x : ℚ) : ℚ := if x < 0 then -x else x

/-- Round a rational to the nearest integer, ties to even (Python's rounding
of an exactly-representable value). -/
def roundHalfEven (x : ℚ) : ℤ :=
  let f := ⌊x⌋
  if x - f < 1 / 2 then f
  else if 1 / 2 < x - f then f + 1
  else if f % 2 = 0 then f else f + 1

/-- Python `round(x, 2)`. -/
def round2 (x : ℚ) : ℚ := (roundHalfEven (x * 100) : ℚ) / 100

/-- Python `round(x, 4)`. -/
def round4 (x : ℚ) : ℚ := (roundHalfEven (x * 10000) : ℚ) / 10000

/-- One telemetry record as handed to the model service: the three feature
columns plus the (optional) timestamp string carried through to outputs
(`telemetry_data` dicts built in `backend/app/api/telemetry.py`). -/
structure TelemetryRecord where
  voltage : ℚ
  current : ℚ
  temperature : ℚ
  timestamp : Option String
deriving DecidableEq

/-- One column of a fitted `sklearn` `StandardScaler`: the stored mean and
population variance (`mean_`, `var_`). -/
structure ColumnScaler where
  mean : ℚ
  var : ℚ
deriving DecidableEq

/-- `scale_` of a fitted column: square root of the variance, with zero
variance replaced by 1 (sklearn's `_handle_zeros_in_scale`).  `sqrtFn` is
the floating-point square root. -/
def scaleOf (sqrtFn : ℚ → ℚ) (c : ColumnScaler) : ℚ :=
  if c.var = 0 then 1 else sqrtFn c.var

/-- `StandardScaler.transform` on one column. -/
def transform1 (sqrtFn : ℚ → ℚ) (c : ColumnScaler) (x : ℚ) : ℚ :=
  (x - c.mean) / scaleOf sqrtFn c

/-- `StandardScaler.inverse_transform` on one column. -/
def inverseTransform (sqrtFn : ℚ → ℚ) (c : ColumnScaler) (y : ℚ) : ℚ :=
  y * scaleOf sqrtFn c + c.mean

/-- `StandardScaler.fit` on one column of data. -/
def fitColumn (xs : List ℚ) : ColumnScaler :=
  let n : ℚ := xs.length
  let m := xs.sum / n
  { mean := m, var := (xs.map (fun x => (x - m) * (x - m))).sum / n }

/-- The three-column feature scaler `scaler_X` (voltage, current, temperature). -/
structure XScaler where
  v : ColumnScaler
  c : ColumnScaler
  t : ColumnScaler
deriving DecidableEq

/-- Fit `scaler_X` on the three feature columns of a telemetry list
(`self.scaler_X.fit(features)` in `fit_scalers`; also the training-time
`scaler.fit_transform(df[feature_cols])` in `ml/solar_telemetry_model.py`,
whose fitted parameters are saved for production use). -/
def fitX (data : List TelemetryRecord) : XScaler :=
  { v := fitColumn (data.map (·.voltage))
    c := fitColumn (data.map (·.current))
    t := fitColumn (data.map (·.temperature)) }

/-- Fit `scaler_y` on the power column `voltage * current`. -/
def fitY (data : List TelemetryRecord) : ColumnScaler :=
  fitColumn (data.map (fun d => d.voltage * d.current))

/-- Scale one record's `[voltage, current, temperature]` feature vector. -/
def transformFeatures (sqrtFn : ℚ → ℚ) (sx : XScaler) (d : TelemetryRecord) : ℚ × ℚ × ℚ :=
  (transform1 sqrtFn sx.v d.voltage, transform1 sqrtFn sx.c d.current,
   transform1 sqrtFn sx.t d.temperature)

/-- The pre-trained LSTM, abstracted: maps one scaled input window to the
scaled predicted power (`self.model.predict`, one row at a time). -/
def ModelFn : Type := List (ℚ × ℚ × ℚ) → ℚ

/-- State of `TelemetryModelService` (`__init__` fields). -/
structure TelemetryModelService where
  model : Option ModelFn
  scaler_X : XScaler
  scaler_y : ColumnScaler
  is_fitted : Bool

/-- `self.sequence_length`, set to 20 in `__init__` and never reassigned. -/
def sequence_length : ℕ := 20

/-- A freshly constructed service: `model` is whatever `_load_model` produced
(`none` when the `.h5` file is missing or fails to load), the scalers are
fresh unfitted `StandardScaler()`s (parameters unset; placeholder zeros —
every code path consults `is_fitted` before using them), `is_fitted = False`. -/
def initService (loaded : Option ModelFn) : TelemetryModelService :=
  { model := loaded
    scaler_X := { v := ⟨0, 0⟩, c := ⟨0, 0⟩, t := ⟨0, 0⟩ }
    scaler_y := ⟨0, 0⟩
    is_fitted := false }

/-- `TelemetryModelService.fit_scalers`: returns `False` on fewer than 100
records, otherwise fits `scaler_X` on the features and `scaler_y` on power
and sets `is_fitted`.  The pair is (new service state, return value). -/
def fit_scalers (s : TelemetryModelService) (telemetry_data : List TelemetryRecord) :
    TelemetryModelService × Bool :=
  if telemetry_data.length < 100 then (s, false)
  else
    ({ s with
        scaler_X := fitX telemetry_data
        scaler_y := fitY telemetry_data
        is_fitted := true },
     true)

/-- The window list built by the `for i in range(len(scaled_features) -
self.sequence_length)` loop of `create_sequences`: window `i` is
`scaled_features[i : i + sequence_length]`. -/
def windowsOf (scaled : List (ℚ × ℚ × ℚ)) : List (List (ℚ × ℚ × ℚ)) :=
  (List.range (scaled.length - sequence_length)).map
    (fun i => (scaled.drop i).take sequence_length)

/-- `TelemetryModelService.create_sequences`: raises `ValueError` when the
scalers are not fitted; returns `None` on fewer than `sequence_length`
records; otherwise scales the features and windows them, returning `None`
when the window list is empty (`np.array(sequences) if sequences else None`). -/
def create_sequences (sqrtFn : ℚ → ℚ) (s : TelemetryModelService)
    (telemetry_data : List TelemetryRecord) :
    Except String (Option (List (List (ℚ × ℚ × ℚ)))) :=
  if s.is_fitted = false then Except.error "Scalers not fitted. Call fit_scalers first."
  else if telemetry_data.length < sequence_length then Except.ok none
  else
    let scaled := telemetry_data.map (transformFeatures sqrtFn s.scaler_X)
    let sequences := windowsOf scaled
    Except.ok (if sequences.isEmpty then none else some sequences)

/-- One element of the list returned by `predict_power` (the `results`
dicts; all four derived values are stored rounded to two decimals). -/
structure PredictionPoint where
  timestamp : Option String
  actual_power : ℚ
  predicted_power : ℚ
  error : ℚ
  error_percent : ℚ
  voltage : ℚ
  current : ℚ
  temperature : ℚ
deriving DecidableEq

/-- Build the `results` entry for window `i` from its input window and the
record at index `i + sequence_length` (`telemetry_data[idx]`). -/
def mkPredictionPoint (sqrtFn : ℚ → ℚ) (sy : ColumnScaler) (m : ModelFn)
    (window : List (ℚ × ℚ × ℚ)) (rec : TelemetryRecord) : PredictionPoint :=
  let actual_power := rec.voltage * rec.current
  let predicted_power := inverseTransform sqrtFn sy (m window)
  let err := absq (actual_power - predicted_power)
  let error_percent := err / (actual_power + 1 / 100000000) * 100
  { timestamp := rec.timestamp
    actual_power := round2 actual_power
    predicted_power := round2 predicted_power
    error := round2 err
    error_percent := round2 error_percent
    voltage := rec.voltage
    current := rec.current
    temperature := rec.temperature }

/-- `TelemetryModelService.predict_power`.  Returns the (possibly updated)
service state together with `None`/the results list; `Except.error` is a
propagating Python exception. -/
def predict_power (sqrtFn : ℚ → ℚ) (s : TelemetryModelService)
    (telemetry_data : List TelemetryRecord) :
    TelemetryModelService × Except String (Option (List PredictionPoint)) :=
  match s.model with
  | none => (s, Except.ok none)
  | some m =>
    let fr := if s.is_fitted then (s, true) else fit_scalers s telemetry_data
    if fr.2 = false then (fr.1, Except.ok none)
    else
      match create_sequences sqrtFn fr.1 telemetry_data with
      | Except.error e => (fr.1, Except.error e)
      | Except.ok none => (fr.1, Except.ok none)
      | Except.ok (some sequences) =>
        (fr.1, Except.ok (some (List.zipWith
          (mkPredictionPoint sqrtFn fr.1.scaler_y m)
          sequences (telemetry_data.drop sequence_length))))

/-- The single prediction produced by the fitted service on `dataB` with
model `mB`: actual power `4 * 3 = 12`, exact predicted power
`(-1/1250) * 5 + 7 = 6.996`, exact error `5.004` stored rounded as `5`,
error percent stored as `41.7`. -/
def pB : PredictionPoint := ⟨none, 12, 7, 5, 417 / 10, 4, 3, 26⟩

/-- The nested `details` dict of an anomaly. -/
structure AnomalyDetails where
  voltage : ℚ
  current : ℚ
  temperature : ℚ
deriving DecidableEq

/-- One anomaly dict returned by `detect_anomalies`. -/
structure Anomaly where
  timestamp : Option String
  severity : String
  error : ℚ
  error_percent : ℚ
  actual_power : ℚ
  predicted_power : ℚ
  details : AnomalyDetails
deriving DecidableEq

/-- The anomaly dict built from one flagged prediction
(`'high' if pred['error'] > threshold * 2 else 'medium'`). -/
def anomalyOf (threshold : ℚ) (p : PredictionPoint) : Anomaly :=
  { timestamp := p.timestamp
    severity := if threshold * 2 < p.error then "high" else "medium"
    error := p.error
    error_percent := p.error_percent
    actual_power := p.actual_power
    predicted_power := p.predicted_power
    details := ⟨p.voltage, p.current, p.temperature⟩ }

/-- `TelemetryModelService.detect_anomalies`: run `predict_power`, return
`[]` when it yields `None`, otherwise keep exactly the predictions whose
stored `error` exceeds the threshold. -/
def detect_anomalies (sqrtFn : ℚ → ℚ) (s : TelemetryModelService)
    (telemetry_data : List TelemetryRecord) (threshold : ℚ) :
    TelemetryModelService × Except String (List Anomaly) :=
  let pr := predict_power sqrtFn s telemetry_data
  (pr.1,
    match pr.2 with
    | Except.error e => Except.error e
    | Except.ok none => Except.ok []
    | Except.ok (some predictions) =>
      Except.ok ((predictions.filter (fun p => threshold < p.error)).map
        (anomalyOf threshold)))

/-! ### Concrete data used in witnesses and counterexamples

`sqrt0` below agrees with the real square root on every variance it is
actually applied to in the concrete scenarios (the fitted variances are
1, 25 and 169, and `sqrt0` maps them to 1, 5 and 13). -/

/-- A concrete stand-in for the floating-point square root, exact on the
variances arising from the concrete data below. -/
def sqrt0 : ℚ → ℚ := fun v => if v = 25 then 5 else if v = 169 then 13 else 1

/-- A concrete loaded LSTM that always outputs scaled value 0. -/
def mZero : ModelFn := fun _ => 0

/-- A concrete loaded LSTM that always outputs scaled value `-1/1250`. -/
def mB : ModelFn := fun _ => -1 / 1250

/-- 100 telemetry records: 50 × (2 V, 1 A, 24 °C) and 50 × (4 V, 3 A, 26 °C).
Feature means (3, 2, 25), feature variances (1, 1, 1); power mean 7,
power variance 25. -/
def trainingTelemetry : List TelemetryRecord :=
  List.replicate 50 ⟨2, 1, 24, none⟩ ++ List.replicate 50 ⟨4, 3, 26, none⟩

/-- 100 telemetry records with a different distribution: 50 × (10, 1, 24)
and 50 × (12, 3, 26).  Feature means (11, 2, 25), variances (1, 1, 1);
power mean 23, power variance 169. -/
def inferenceData : List TelemetryRecord :=
  List.replicate 50 ⟨10, 1, 24, none⟩ ++ List.replicate 50 ⟨12, 3, 26, none⟩

/-- 21 telemetry records: one full window plus the record being predicted. -/
def dataB : List TelemetryRecord :=
  List.replicate 20 ⟨2, 1, 24, none⟩ ++ [⟨4, 3, 26, none⟩]

/-- 20 telemetry records, as fetched by an endpoint at its minimum. -/
def recs20 : List TelemetryRecord := List.replicate 20 ⟨2, 1, 24, none⟩

theorem trainingTelemetry_length : trainingTelemetry.length = 100 := by
  simp [trainingTelemetry]

theorem inferenceData_length : inferenceData.length = 100 := by
  simp [inferenceData]

theorem dataB_length : dataB.length = 21 := by
  simp [dataB]

theorem fitX_training : fitX trainingTelemetry = ⟨⟨3, 1⟩, ⟨2, 1⟩, ⟨25, 1⟩⟩ := by
  simp only [fitX, fitColumn, trainingTelemetry, List.map_append, List.map_replicate,
    List.sum_append, List.sum_replicate, List.length_append, List.length_replicate,
    nsmul_eq_mul, XScaler.mk.injEq, ColumnScaler.mk.injEq]
  norm_num

theorem fitY_training : fitY trainingTelemetry = ⟨7, 25⟩ := by
  simp only [fitY, fitColumn, trainingTelemetry, List.map_append, List.map_replicate,
    List.sum_append, List.sum_replicate, List.length_append, List.length_replicate,
    nsmul_eq_mul, ColumnScaler.mk.injEq]
  norm_num

theorem fitX_inference : fitX inferenceData = ⟨⟨11, 1⟩, ⟨2, 1⟩, ⟨25, 1⟩⟩ := by
  simp only [fitX, fitColumn, inferenceData, List.map_append, List.map_replicate,
    List.sum_append, List.sum_replicate, List.length_append, List.length_replicate,
    nsmul_eq_mul, XScaler.mk.injEq, ColumnScaler.mk.injEq]
  norm_num

theorem fitY_inference : fitY inferenceData = ⟨23, 169⟩ := by
  simp only [fitY, fitColumn, inferenceData, List.map_append, List.map_replicate,
    List.sum_append, List.sum_replicate, List.length_append, List.length_replicate,
    nsmul_eq_mul, ColumnScaler.mk.injEq]
  norm_num

/-- The fitted state reached by calling `fit_scalers` on
`trainingTelemetry` from a fresh service whose model is loaded. -/
def fittedService (m : ModelFn) : TelemetryModelService :=
  (fit_scalers (initService (some m)) trainingTelemetry).1

theorem fittedService_eq (m : ModelFn) :
    fittedService m =
      { model := some m, scaler_X := ⟨⟨3, 1⟩, ⟨2, 1⟩, ⟨25, 1⟩⟩,
        scaler_y := ⟨7, 25⟩, is_fitted := true } := by
  simp [fittedService, fit_scalers, trainingTelemetry_length, initService,
    fitX_training, fitY_training]

example : roundHalfEven (5 / 2) = 2 := by norm_num [roundHalfEven]
example : roundHalfEven (7 / 2) = 4 := by norm_num [roundHalfEven]
example : round2 (1251 / 250) = 5 := by norm_num [round2, roundHalfEven]
example : round2 (6996 / 1000) = 7 := by norm_num [round2, roundHalfEven]
example : fitColumn [2, 4, 2, 4] = ⟨3, 1⟩ := by norm_num [fitColumn]

/-! ### Behavioural lemmas about the service methods -/

theorem windowsOf_length (scaled : List (ℚ × ℚ × ℚ)) :
    (windowsOf scaled).length = scaled.length - sequence_length := by
  simp [windowsOf]

theorem fit_scalers_small (s : TelemetryModelService) (d : List TelemetryRecord)
    (h : d.length < 100) : fit_scalers s d = (s, false) := by
  simp [fit_scalers, h]

theorem fit_scalers_big (s : TelemetryModelService) (d : List TelemetryRecord)
    (h : 100 ≤ d.length) :
    fit_scalers s d =
      ({ s with scaler_X := fitX d, scaler_y := fitY d, is_fitted := true }, true) := by
  simp [fit_scalers, Nat.not_lt.2 h]

theorem create_sequences_short (sqrtFn : ℚ → ℚ) (s : TelemetryModelService)
    (d : List TelemetryRecord) (hf : s.is_fitted = true) (h : d.length ≤ 20) :
    create_sequences sqrtFn s d = Except.ok none := by
  by_cases hlt : d.length < sequence_length
  · simp [create_sequences, hf, hlt]
  · have he : d.length = 20 := by
      have := Nat.not_lt.1 hlt
      simp [sequence_length] at this
      omega
    simp [create_sequences, hf, hlt, windowsOf, he, sequence_length]

theorem create_sequences_long (sqrtFn : ℚ → ℚ) (s : TelemetryModelService)
    (d : List TelemetryRecord) (hf : s.is_fitted = true) (h : 20 < d.length) :
    create_sequences sqrtFn s d =
      Except.ok (some (windowsOf (d.map (transformFeatures sqrtFn s.scaler_X)))) := by
  have hlt : ¬ d.length < sequence_length := by
    simp [sequence_length]; omega
  have hne : (windowsOf (d.map (transformFeatures sqrtFn s.scaler_X))).isEmpty = false := by
    rw [List.isEmpty_eq_false_iff_exists_mem]
    obtain ⟨k, hk⟩ : ∃ k, (d.map (transformFeatures sqrtFn s.scaler_X)).length -
        sequence_length = k + 1 := by
      refine ⟨d.length - sequence_length - 1, ?_⟩
      simp [sequence_length]
      omega
    rw [windowsOf, hk, List.range_succ_eq_map]
    exact ⟨_, List.mem_map_of_mem _ (List.mem_cons_self _ _)⟩
  simp [create_sequences, hf, hlt, hne]

/-- The sequences a `create_sequences` result carries: `None` means no
sequences were produced. -/
def producedSequences (out : Option (List (List (ℚ × ℚ × ℚ)))) : List (List (ℚ × ℚ × ℚ)) :=
  out.getD []

/-- C2: with the scalers fitted, `create_sequences` on `n` records returns
`None` (no sequences) when `n < 20`; when `n ≥ 20` it produces exactly
`n - 20` sequences, the `i`-th being the scaled feature vectors of records
`i` through `i + 19` in input order.  (At `n = 20` it produces exactly
`0` sequences, i.e. returns `None`, which the code realises as
`np.array(sequences) if sequences else None`.) -/
theorem create_sequences_spec (sqrtFn : ℚ → ℚ) (s : TelemetryModelService)
    (data : List TelemetryRecord) (hfit : s.is_fitted = true) :
    (data.length < 20 → create_sequences sqrtFn s data = Except.ok none) ∧
    (20 ≤ data.length →
      ∃ out, create_sequences sqrtFn s data = Except.ok out ∧
        (producedSequences out).length = data.length - 20 ∧
        ∀ i (hi : i < (producedSequences out).length),
          (producedSequences out).get ⟨i, hi⟩ =
            ((data.drop i).take 20).map (transformFeatures sqrtFn s.scaler_X)) := by
  constructor
  · intro h
    exact create_sequences_short sqrtFn s data hfit (Nat.le_of_lt h)
  · intro h
    by_cases h20 : data.length = 20
    · refine ⟨none, create_sequences_short sqrtFn s data hfit (by omega), ?_, ?_⟩
      · simp [producedSequences, h20]
      · intro i hi
        simp [producedSequences] at hi
    · have hlong : 20 < data.length := by omega
      refine ⟨some (windowsOf (data.map (transformFeatures sqrtFn s.scaler_X))),
        create_sequences_long sqrtFn s data hfit hlong, ?_, ?_⟩
      · simp [producedSequences, windowsOf_length, sequence_length]
      · intro i hi
        simp only [producedSequences, Option.getD_some] at hi ⊢
        simp only [windowsOf] at hi ⊢
        simp only [List.get_eq_getElem, List.getElem_map, List.getElem_range,
          sequence_length]
        simp [List.map_take, List.map_drop]

/-- Witness for C2: a fitted service and a concrete 21-record list. -/
theorem create_sequences_spec_witness :
    20 ≤ dataB.length ∧
      ∃ out, create_sequences sqrt0 (fittedService mB) dataB = Except.ok out ∧
        (producedSequences out).length = dataB.length - 20 ∧
        ∀ i (hi : i < (producedSequences out).length),
          (producedSequences out).get ⟨i, hi⟩ =
            ((dataB.drop i).take 20).map
              (transformFeatures sqrt0 (fittedService mB).scaler_X) :=
  ⟨by simp [dataB],
   (create_sequences_spec sqrt0 (fittedService mB) dataB
      (by simp [fittedService_eq])).2 (by simp [dataB])⟩

theorem predict_power_model_none (sqrtFn : ℚ → ℚ) (s : TelemetryModelService)
    (d : List TelemetryRecord) (h : s.model = none) :
    predict_power sqrtFn s d = (s, Except.ok none) := by
  simp [predict_power, h]

theorem predict_power_unfitted_small (sqrtFn : ℚ → ℚ) (s : TelemetryModelService)
    (d : List TelemetryRecord) (m : ModelFn) (hm : s.model = some m)
    (hf : s.is_fitted = false) (h : d.length < 100) :
    predict_power sqrtFn s d = (s, Except.ok none) := by
  simp [predict_power, hm, hf, fit_scalers_small s d h]

theorem predict_power_fitted_short (sqrtFn : ℚ → ℚ) (s : TelemetryModelService)
    (d : List TelemetryRecord) (m : ModelFn) (hm : s.model = some m)
    (hf : s.is_fitted = true) (h : d.length ≤ 20) :
    predict_power sqrtFn s d = (s, Except.ok none) := by
  simp [predict_power, hm, hf, create_sequences_short sqrtFn s d hf h]

theorem predict_power_fitted_long (sqrtFn : ℚ → ℚ) (s : TelemetryModelService)
    (d : List TelemetryRecord) (m : ModelFn) (hm : s.model = some m)
    (hf : s.is_fitted = true) (h : 20 < d.length) :
    predict_power sqrtFn s d =
      (s, Except.ok (some (List.zipWith (mkPredictionPoint sqrtFn s.scaler_y m)
        (windowsOf (d.map (transformFeatures sqrtFn s.scaler_X)))
        (d.drop sequence_length)))) := by
  simp [predict_power, hm, hf, create_sequences_long sqrtFn s d hf h]

theorem predict_power_unfitted_big (sqrtFn : ℚ → ℚ) (s : TelemetryModelService)
    (d : List TelemetryRecord) (m : ModelFn) (hm : s.model = some m)
    (hf : s.is_fitted = false) (h : 100 ≤ d.length) :
    predict_power sqrtFn s d =
      ({ s with scaler_X := fitX d, scaler_y := fitY d, is_fitted := true },
       Except.ok (some (List.zipWith (mkPredictionPoint sqrtFn (fitY d) m)
         (windowsOf (d.map (transformFeatures sqrtFn (fitX d))))
         (d.drop sequence_length)))) := by
  have h20 : 20 < d.length := by omega
  have hfit := fit_scalers_big s d h
  have hcs := create_sequences_long sqrtFn
    { s with scaler_X := fitX d, scaler_y := fitY d, is_fitted := true } d rfl h20
  simp only [predict_power, hm, hf] at *
  simp [hfit, hcs]

theorem dataB_drop20 : dataB.drop 20 = [⟨4, 3, 26, none⟩] := by simp [dataB]

theorem predict_dataB :
    (predict_power sqrt0 (fittedService mB) dataB).2 = Except.ok (some [pB]) := by
  have hm : (fittedService mB).model = some mB := by rw [fittedService_eq]
  have hf : (fittedService mB).is_fitted = true := by rw [fittedService_eq]
  have h21 : 20 < dataB.length := by rw [dataB_length]; omega
  rw [predict_power_fitted_long sqrt0 (fittedService mB) dataB mB hm hf h21]
  simp only [fittedService_eq, sequence_length, dataB_drop20]
  simp only [windowsOf, dataB, List.map_append, List.map_replicate, List.map_cons,
    List.map_nil, List.length_append, List.length_replicate, List.length_cons,
    List.length_nil, sequence_length]
  norm_num [List.range_succ, List.range_zero, List.zipWith, mkPredictionPoint, mB, inverseTransform,
    scaleOf, sqrt0, absq, round2, roundHalfEven, pB, Int.floor_eq_iff]

/-- C3 (amended): `detect_anomalies` returns exactly those predicted points
whose stored error — the absolute error rounded to two decimals, as carried
in the prediction's `error` field — exceeds the threshold, preserving their
order; and when `predict_power` yields no predictions the result is `[]`. -/
theorem detect_anomalies_spec (sqrtFn : ℚ → ℚ) (s : TelemetryModelService)
    (data : List TelemetryRecord) (t : ℚ) :
    ((predict_power sqrtFn s data).2 = Except.ok none →
        (detect_anomalies sqrtFn s data t).2 = Except.ok []) ∧
    (∀ preds, (predict_power sqrtFn s data).2 = Except.ok (some preds) →
        (detect_anomalies sqrtFn s data t).2 =
          Except.ok ((preds.filter (fun p => t < p.error)).map (anomalyOf t))) := by
  constructor
  · intro h
    simp only [detect_anomalies]
    rw [h]
  · intro preds h
    simp only [detect_anomalies]
    rw [h]

/-- Witness for C3's amended theorem on a concrete run producing one
prediction whose stored error 5 exceeds the threshold 1. -/
theorem detect_anomalies_spec_witness :
    (detect_anomalies sqrt0 (fittedService mB) dataB 1).2 =
      Except.ok (([pB].filter (fun p => 1 < p.error)).map (anomalyOf 1)) :=
  (detect_anomalies_spec sqrt0 (fittedService mB) dataB 1).2 [pB] predict_dataB

/-- Counterexample to C3 as stated: on `dataB` the pipeline serves exactly
one prediction, for the record with actual power `12` and exact predicted
power `6.996`; its exact absolute error `5.004` exceeds the threshold `5`,
so the claim requires the point to be flagged — but its stored error is
`round2 5.004 = 5`, which does not exceed `5`, and `detect_anomalies`
returns the empty list. -/
theorem detect_anomalies_exact_error_cex :
    (detect_anomalies sqrt0 (fittedService mB) dataB 5).2 = Except.ok [] ∧
    (predict_power sqrt0 (fittedService mB) dataB).2 = Except.ok (some [pB]) ∧
    5 < absq ((4 * 3 : ℚ) - inverseTransform sqrt0 ⟨7, 25⟩ (-1 / 1250)) ∧
    pB.error = round2 (absq ((4 * 3 : ℚ) - inverseTransform sqrt0 ⟨7, 25⟩ (-1 / 1250))) ∧
    ¬ 5 < pB.error := by
  refine ⟨?_, predict_dataB, ?_, ?_, ?_⟩
  · simp only [detect_anomalies]
    rw [predict_dataB]
    norm_num [pB]
  · norm_num [absq, inverseTransform, scaleOf, sqrt0]
  · norm_num [absq, inverseTransform, scaleOf, sqrt0, pB, round2, roundHalfEven]
  · norm_num [pB]

/-- C8: every anomaly returned by `detect_anomalies` with threshold `t`
carries severity `"high"` exactly when its stored error strictly exceeds
`2 * t`, and `"medium"` otherwise; no other severity value occurs. -/
theorem detect_anomalies_severity (sqrtFn : ℚ → ℚ) (s : TelemetryModelService)
    (data : List TelemetryRecord) (t : ℚ) (l : List Anomaly)
    (h : (detect_anomalies sqrtFn s data t).2 = Except.ok l) (a : Anomaly)
    (ha : a ∈ l) :
    (a.severity = "high" ∨ a.severity = "medium") ∧
      (a.severity = "high" ↔ 2 * t < a.error) := by
  simp only [detect_anomalies] at h
  rcases hp : (predict_power sqrtFn s data).2 with e | o
  · rw [hp] at h
    cases h
  · rcases o with _ | preds
    · rw [hp] at h
      cases h
      simp at ha
    · rw [hp] at h
      cases h
      obtain ⟨p, hpmem, hpa⟩ := List.mem_map.1 ha
      subst hpa
      simp only [anomalyOf]
      rw [mul_comm t 2] at *
      constructor
      · by_cases hc : t * 2 < p.error <;> simp [hc] <;>
          exact lt_or_le (2 * t) p.error
      · by_cases hc : t * 2 < p.error <;> simp [hc, mul_comm]

theorem detect_dataB_t1 :
    (detect_anomalies sqrt0 (fittedService mB) dataB 1).2 =
      Except.ok [anomalyOf 1 pB] := by
  simp only [detect_anomalies]
  rw [predict_dataB]
  norm_num [pB]

/-- Witness for C8 on a concrete anomaly with stored error 5 and
threshold 1 (severity `"high"`). -/
theorem detect_anomalies_severity_witness :
    ((anomalyOf 1 pB).severity = "high" ∨ (anomalyOf 1 pB).severity = "medium") ∧
      ((anomalyOf 1 pB).severity = "high" ↔ 2 * 1 < (anomalyOf 1 pB).error) :=
  detect_anomalies_severity sqrt0 (fittedService mB) dataB 1 [anomalyOf 1 pB]
    detect_dataB_t1 (anomalyOf 1 pB) (by simp)

/-- C1 (evidence of the code bug): a fresh service whose model is loaded
starts unfitted; the first `predict_power` request that succeeds fits the
feature scaler on the request's own telemetry (`fit_scalers` inside
`predict_power`), not on the training data — the backend never loads the
`telemetry_scaler_X.joblib` parameters that `ml/solar_telemetry_model.py`
fits on the training set and saves for production.  Concretely, serving
`inferenceData` leaves the service with scaler parameters
`fitX inferenceData`, which differ from the training-time parameters
`fitX trainingTelemetry`, and the two scalings send the same record to
different scaled feature vectors. -/
theorem predict_power_refits_scalers_at_inference :
    (initService (some mZero)).is_fitted = false ∧
    ((predict_power sqrt0 (initService (some mZero)) inferenceData).1).scaler_X =
      fitX inferenceData ∧
    (∃ preds, (predict_power sqrt0 (initService (some mZero)) inferenceData).2 =
        Except.ok (some preds)) ∧
    fitX inferenceData ≠ fitX trainingTelemetry ∧
    transformFeatures sqrt0 (fitX inferenceData) ⟨10, 1, 24, none⟩ ≠
      transformFeatures sqrt0 (fitX trainingTelemetry) ⟨10, 1, 24, none⟩ := by
  have hm : (initService (some mZero)).model = some mZero := rfl
  have hf : (initService (some mZero)).is_fitted = false := rfl
  have h100 : 100 ≤ inferenceData.length := by rw [inferenceData_length]
  have hpp := predict_power_unfitted_big sqrt0 (initService (some mZero))
    inferenceData mZero hm hf h100
  refine ⟨rfl, ?_, ?_, ?_, ?_⟩
  · rw [hpp]
  · exact ⟨_, by rw [hpp]⟩
  · rw [fitX_inference, fitX_training]
    simp only [XScaler.mk.injEq, ColumnScaler.mk.injEq, ne_eq]
    norm_num
  · rw [fitX_inference, fitX_training]
    simp only [transformFeatures, transform1, scaleOf, sqrt0, ne_eq, Prod.mk.injEq]
    norm_num

/-- Python `max` over a nonempty list (`max(p['error'] for p in predictions)`);
0 on the empty list, which cannot occur at its call site. -/
def listMax : List ℚ → ℚ
  | [] => 0
  | x :: xs => xs.foldl max x

/-- The success payload of `GET /telemetry/predict`: total count, the last
10 predictions (`predictions[-10:]`), and the rounded summary statistics. -/
structure PredictResponse where
  total_predictions : ℕ
  predictions : List PredictionPoint
  avg_error : ℚ
  max_error : ℚ
  avg_error_percent : ℚ
deriving DecidableEq

/-- The `GET /telemetry/predict` endpoint (`backend/app/api/telemetry.py`,
`predict_power`).  `records` is the list the database query returned
(most recent first, at most `limit` of them); the endpoint rejects fewer
than 20 rows with 400, reverses to chronological order, calls the model
service, and maps a `None` result to 503.  The 500 branch models an
uncaught exception propagating to the framework (it is unreachable: the
service only raises when the scalers are unfitted, and `predict_power`
fits them first). -/
def predictEndpoint (sqrtFn : ℚ → ℚ) (s : TelemetryModelService)
    (records : List TelemetryRecord) :
    TelemetryModelService × ApiOutcome PredictResponse :=
  if records.length < 20 then (s, ApiOutcome.httpError 400)
  else
    let telemetry_data := records.reverse
    let pr := predict_power sqrtFn s telemetry_data
    (pr.1,
      match pr.2 with
      | Except.error _ => ApiOutcome.httpError 500
      | Except.ok none => ApiOutcome.httpError 503
      | Except.ok (some predictions) =>
        ApiOutcome.ok
          { total_predictions := predictions.length
            predictions := predictions.drop (predictions.length - 10)
            avg_error := round2 ((predictions.map (·.error)).sum / predictions.length)
            max_error := round2 (listMax (predictions.map (·.error)))
            avg_error_percent :=
              round2 ((predictions.map (·.error_percent)).sum / predictions.length) })

/-- C4 (amended): `GET /telemetry/predict` fails with 400 exactly when fewer
than 20 records were fetched, and fails with 503 exactly when at least 20
records were fetched but the service yields no predictions — the model is
not loaded, or the scalers are unfitted and fewer than 100 records were
fetched, or exactly 20 records were fetched (no window has a successor
record to predict). -/
theorem predictEndpoint_status (sqrtFn : ℚ → ℚ) (s : TelemetryModelService)
    (records : List TelemetryRecord) :
    ((predictEndpoint sqrtFn s records).2 = ApiOutcome.httpError 400 ↔
      records.length < 20) ∧
    ((predictEndpoint sqrtFn s records).2 = ApiOutcome.httpError 503 ↔
      (20 ≤ records.length ∧
        (s.model = none ∨ (s.is_fitted = false ∧ records.length < 100) ∨
          records.length = 20))) := by
  have hrev : records.reverse.length = records.length := List.length_reverse _
  by_cases h20 : records.length < 20
  · constructor
    · simp [predictEndpoint, h20]
    · simp [predictEndpoint, h20]
  · have hlen : 20 ≤ records.length := Nat.not_lt.1 h20
    rcases hmodel : s.model with _ | m
    · have hpp := predict_power_model_none sqrtFn s records.reverse hmodel
      constructor
      · simp [predictEndpoint, h20, hpp]
      · simp [predictEndpoint, h20, hpp, hlen, hmodel]
    · rcases hfit : s.is_fitted with _ | _
      · by_cases h100 : records.length < 100
        · have hpp := predict_power_unfitted_small sqrtFn s records.reverse m hmodel
            hfit (by rw [hrev]; exact h100)
          constructor
          · simp [predictEndpoint, h20, hpp]
          · simp [predictEndpoint, h20, hpp, hlen, hmodel, hfit, h100]
        · have hpp := predict_power_unfitted_big sqrtFn s records.reverse m hmodel
            hfit (by rw [hrev]; omega)
          constructor
          · simp [predictEndpoint, h20, hpp]
          · simp [predictEndpoint, h20, hpp, hmodel, hfit]
            omega
      · by_cases heq : records.length = 20
        · have hpp := predict_power_fitted_short sqrtFn s records.reverse m hmodel
            hfit (by rw [hrev]; omega)
          constructor
          · simp [predictEndpoint, h20, hpp]
          · simp [predictEndpoint, h20, hpp, hlen, heq, hmodel, hfit]
        · have hpp := predict_power_fitted_long sqrtFn s records.reverse m hmodel
            hfit (by rw [hrev]; omega)
          constructor
          · simp [predictEndpoint, h20, hpp]
          · simp [predictEndpoint, h20, hpp, hmodel, hfit, heq]

/-- Witness for C4's amended theorem: a loaded but unfitted service with
exactly 20 fetched records is answered with 503. -/
theorem predictEndpoint_status_witness :
    (predictEndpoint sqrt0 (initService (some mZero)) recs20).2 =
      ApiOutcome.httpError 503 :=
  (predictEndpoint_status sqrt0 (initService (some mZero)) recs20).2.mpr
    ⟨by simp [recs20], Or.inr (Or.inl ⟨rfl, by simp [recs20]⟩)⟩

/-- Counterexample to C4 as stated: the claim says 503 happens exactly when
the model is unavailable, but a request with 20 records against a service
whose model IS loaded (and whose scalers are unfitted) is also answered
with 503 — and although the data is insufficient for any prediction, the
response is not 400 either. -/
theorem predictEndpoint_503_model_loaded_cex :
    (predictEndpoint sqrt0 (initService (some mZero)) recs20).2 =
      ApiOutcome.httpError 503 ∧
    (initService (some mZero)).model ≠ none ∧
    20 ≤ recs20.length := by
  have hlen : recs20.reverse.length = 20 := by simp [recs20]
  have hpp := predict_power_unfitted_small sqrt0 (initService (some mZero))
    recs20.reverse mZero rfl rfl (by rw [hlen]; omega)
  refine ⟨?_, by simp [initService], by simp [recs20]⟩
  have h20 : ¬ recs20.length < 20 := by simp [recs20]
  simp [predictEndpoint, h20, hpp]

/-! ### Panels (`backend/app/api/panels.py`) -/

/-- `PanelStatus` enum. -/
inductive PanelStatus where
  | OK
  | WARNING
  | FAULT
deriving DecidableEq

/-- One row of the `panels` table.  UUIDs are modelled as naturals and the
`deleted_at` timestamp as an optional natural. -/
structure Panel where
  id : ℕ
  site_id : ℕ
  label : Option String
  serial_number : Option String
  status : PanelStatus
  deleted_at : Option ℕ
deriving DecidableEq

/-- The `PanelUpdate` request schema (all fields optional). -/
structure PanelUpdate where
  label : Option String
  serial_number : Option String
  status : Option PanelStatus
deriving DecidableEq

/-- `GET /panels/{panel_id}`: first row with the id, else 404. -/
def get_panel (db : List Panel) (panel_id : ℕ) : ApiOutcome Panel :=
  match db.find? (fun p => p.id == panel_id) with
  | none => ApiOutcome.httpError 404
  | some p => ApiOutcome.ok p

/-- The field-by-field mutation performed by `update_panel`: each payload
field that is not `None` overwrites the panel's field. -/
def applyPanelUpdate (payload : PanelUpdate) (p : Panel) : Panel :=
  let p1 := match payload.label with
    | some l => { p with label := some l }
    | none => p
  let p2 := match payload.serial_number with
    | some sn => { p1 with serial_number := some sn }
    | none => p1
  match payload.status with
  | some st => { p2 with status := st }
  | none => p2

/-- `PATCH /panels/{panel_id}`: 404 when no row has the id; otherwise the
found row is mutated and committed (`id` is the primary key, so the row
with that key is replaced). -/
def update_panel (db : List Panel) (panel_id : ℕ) (payload : PanelUpdate) :
    List Panel × ApiOutcome Panel :=
  match db.find? (fun p => p.id == panel_id) with
  | none => (db, ApiOutcome.httpError 404)
  | some p =>
    (db.map (fun q => if q.id = panel_id then applyPanelUpdate payload q else q),
     ApiOutcome.ok (applyPanelUpdate payload p))

/-- `DELETE /panels/{panel_id}`: 404 when no row has the id; otherwise set
`deleted_at` to the current time and commit. -/
def soft_delete_panel (db : List Panel) (panel_id : ℕ) (now : ℕ) :
    List Panel × ApiOutcome String :=
  match db.find? (fun p => p.id == panel_id) with
  | none => (db, ApiOutcome.httpError 404)
  | some _ =>
    (db.map (fun q => if q.id = panel_id then { q with deleted_at := some now } else q),
     ApiOutcome.ok "Panel soft-deleted")

/-- Insert into a list sorted by descending id. -/
def insertDesc (p : Panel) : List Panel → List Panel
  | [] => [p]
  | q :: qs => if q.id ≤ p.id then p :: q :: qs else q :: insertDesc p qs

/-- Sort by descending id (`order_by(Panel.id.desc())`). -/
def sortByIdDesc : List Panel → List Panel
  | [] => []
  | p :: ps => insertDesc p (sortByIdDesc ps)

/-- `GET /panels`: optional site filter, soft-deleted rows excluded unless
`include_deleted`, ordered by descending id. -/
def list_panels (db : List Panel) (site_id : Option ℕ) (include_deleted : Bool) :
    List Panel :=
  let q := db
  let q := match site_id with
    | some sid => q.filter (fun p => p.site_id == sid)
    | none => q
  let q := if include_deleted then q else q.filter (fun p => p.deleted_at == none)
  sortByIdDesc q

theorem mem_insertDesc (q p : Panel) (l : List Panel) :
    q ∈ insertDesc p l ↔ q = p ∨ q ∈ l := by
  induction l with
  | nil => simp [insertDesc]
  | cons x xs ih =>
    by_cases h : x.id ≤ p.id
    · simp [insertDesc, h]
    · simp [insertDesc, h, ih]
      tauto

theorem mem_sortByIdDesc (q : Panel) (l : List Panel) :
    q ∈ sortByIdDesc l ↔ q ∈ l := by
  induction l with
  | nil => simp [sortByIdDesc]
  | cons x xs ih => simp [sortByIdDesc, mem_insertDesc, ih]

theorem panel_find?_none_iff (db : List Panel) (panel_id : ℕ) :
    db.find? (fun p => p.id == panel_id) = none ↔ ∀ p ∈ db, p.id ≠ panel_id := by
  rw [List.find?_eq_none]
  simp

/-- C5: each id-addressed panel endpoint (`GET`, `PATCH`, `DELETE`
`/panels/{panel_id}`) fails with 404 exactly when no panel row with that id
exists (soft-deleted rows are still found), and on such a failure the
stored panel table is unchanged. -/
theorem panel_404_iff (db : List Panel) (panel_id : ℕ) (payload : PanelUpdate)
    (now : ℕ) :
    (get_panel db panel_id = ApiOutcome.httpError 404 ↔ ∀ p ∈ db, p.id ≠ panel_id) ∧
    ((update_panel db panel_id payload).2 = ApiOutcome.httpError 404 ↔
      ∀ p ∈ db, p.id ≠ panel_id) ∧
    ((soft_delete_panel db panel_id now).2 = ApiOutcome.httpError 404 ↔
      ∀ p ∈ db, p.id ≠ panel_id) ∧
    ((update_panel db panel_id payload).2 = ApiOutcome.httpError 404 →
      (update_panel db panel_id payload).1 = db) ∧
    ((soft_delete_panel db panel_id now).2 = ApiOutcome.httpError 404 →
      (soft_delete_panel db panel_id now).1 = db) := by
  rcases hfind : db.find? (fun p => p.id == panel_id) with _ | p
  · have hall := (panel_find?_none_iff db panel_id).mp hfind
    refine ⟨?_, ?_, ?_, ?_, ?_⟩ <;>
      simp [get_panel, update_panel, soft_delete_panel, hfind, hall] <;>
      exact hall
  · have hmem := List.mem_of_find?_eq_some hfind
    have hid : p.id = panel_id := by
      have := List.find?_some hfind
      simpa using this
    refine ⟨?_, ?_, ?_, ?_, ?_⟩ <;>
      simp [get_panel, update_panel, soft_delete_panel, hfind] <;>
      exact ⟨p, hmem, hid⟩

/-- A concrete panel row. -/
def panelA : Panel := ⟨1, 1, some "A", none, PanelStatus.OK, none⟩

/-- A second concrete panel row on the same site. -/
def panelB : Panel := ⟨2, 1, some "B", none, PanelStatus.WARNING, none⟩

/-- Witness for C5 on a one-row table: id 7 is absent, so `GET` 404s and a
`PATCH` at id 7 leaves the table unchanged; id 1 is present, so `GET` does
not 404. -/
theorem panel_404_iff_witness :
    get_panel [panelA] 7 = ApiOutcome.httpError 404 ∧
    (update_panel [panelA] 7 ⟨some "B", none, none⟩).1 = [panelA] ∧
    ¬ get_panel [panelA] 1 = ApiOutcome.httpError 404 := by
  refine ⟨?_, ?_, ?_⟩
  · exact (panel_404_iff [panelA] 7 ⟨some "B", none, none⟩ 0).1.mpr
      (by simp [panelA])
  · exact (panel_404_iff [panelA] 7 ⟨some "B", none, none⟩ 0).2.2.2.1
      ((panel_404_iff [panelA] 7 ⟨some "B", none, none⟩ 0).2.1.mpr (by simp [panelA]))
  · intro hc
    have := (panel_404_iff [panelA] 1 ⟨some "B", none, none⟩ 0).1.mp hc
    exact this panelA (by simp) (by simp [panelA])

theorem panel_find?_map_of_id_preserving (db : List Panel) (panel_id : ℕ)
    (f : Panel → Panel) (hf : ∀ q, (f q).id = q.id) :
    (db.map f).find? (fun q => q.id == panel_id) =
      (db.find? (fun q => q.id == panel_id)).map f := by
  induction db with
  | nil => simp
  | cons x xs ih =>
    by_cases h : x.id = panel_id
    · rw [List.map_cons, List.find?_cons_of_pos, List.find?_cons_of_pos] <;>
        simp [hf, h]
    · rw [List.map_cons, List.find?_cons_of_neg, List.find?_cons_of_neg, ih] <;>
        simp [hf, h]

/-- C10: deleting an existing panel soft-deletes it — the endpoint succeeds,
the stored table is the old one with only that panel's `deleted_at` set
(every other field and every other row unchanged), the panel is still
returned by `GET /panels/{panel_id}`, it no longer appears in the
`GET /panels` listing by default, and it does appear there with
`include_deleted = true`. -/
theorem soft_delete_panel_frame (db : List Panel) (panel_id : ℕ) (now : ℕ)
    (p : Panel) (hfind : db.find? (fun q => q.id == panel_id) = some p) :
    (soft_delete_panel db panel_id now).2 = ApiOutcome.ok "Panel soft-deleted" ∧
    (soft_delete_panel db panel_id now).1 =
      db.map (fun q => if q.id = panel_id then { q with deleted_at := some now } else q) ∧
    get_panel (soft_delete_panel db panel_id now).1 panel_id =
      ApiOutcome.ok { p with deleted_at := some now } ∧
    (∀ q ∈ list_panels (soft_delete_panel db panel_id now).1 none false,
      q.id ≠ panel_id) ∧
    { p with deleted_at := some now } ∈
      list_panels (soft_delete_panel db panel_id now).1 none true := by
  have hid : p.id = panel_id := by
    have := List.find?_some hfind
    simpa using this
  have hmem := List.mem_of_find?_eq_some hfind
  have hf : ∀ q : Panel,
      ((fun q => if q.id = panel_id then { q with deleted_at := some now } else q) q).id
        = q.id := by
    intro q
    by_cases h : q.id = panel_id <;> simp [h]
  have hdb1 : (soft_delete_panel db panel_id now).1 =
      db.map (fun q => if q.id = panel_id then { q with deleted_at := some now } else q) := by
    simp [soft_delete_panel, hfind]
  refine ⟨by simp [soft_delete_panel, hfind], hdb1, ?_, ?_, ?_⟩
  · rw [hdb1, get_panel, panel_find?_map_of_id_preserving db panel_id _ hf, hfind]
    simp [hid]
  · intro q hq
    simp only [list_panels, Bool.if_false_right] at hq
    rw [mem_sortByIdDesc] at hq
    have hq' := List.mem_filter.1 hq
    obtain ⟨r, hr, hrq⟩ := List.mem_map.1 (hdb1 ▸ hq'.1)
    have hnone : q.deleted_at = none := by simpa using hq'.2
    by_cases h : r.id = panel_id
    · rw [if_pos h] at hrq
      rw [← hrq] at hnone
      simp at hnone
    · rw [if_neg h] at hrq
      rw [← hrq]
      exact h
  · simp only [list_panels, if_pos]
    rw [mem_sortByIdDesc, hdb1]
    refine List.mem_map.2 ⟨p, hmem, ?_⟩
    rw [if_pos hid]

/-- Witness for C10: soft-deleting panel 1 in a two-row table at time 5. -/
theorem soft_delete_panel_frame_witness :
    (soft_delete_panel [panelA, panelB] 1 5).2 = ApiOutcome.ok "Panel soft-deleted" ∧
    get_panel (soft_delete_panel [panelA, panelB] 1 5).1 1 =
      ApiOutcome.ok ⟨1, 1, some "A", none, PanelStatus.OK, some 5⟩ ∧
    (∀ q ∈ list_panels (soft_delete_panel [panelA, panelB] 1 5).1 none false,
      q.id ≠ 1) ∧
    (⟨1, 1, some "A", none, PanelStatus.OK, some 5⟩ : Panel) ∈
      list_panels (soft_delete_panel [panelA, panelB] 1 5).1 none true := by
  obtain ⟨h1, _, h3, h4, h5⟩ :=
    soft_delete_panel_frame [panelA, panelB] 1 5 panelA rfl
  exact ⟨h1, h3, h4, h5⟩

/-! ### Mission images (`backend/app/api/mission_images.py`) and the CV
service (`backend/app/services/cv_service.py`) -/

/-- One row of the `missions` table (only the fields the endpoints read). -/
structure Mission where
  id : ℕ
  status : String
deriving DecidableEq

/-- One row of the `mission_images` table (only the fields the endpoints read). -/
structure MissionImage where
  id : ℕ
  mission_id : ℕ
  storage_path : String
deriving DecidableEq

/-- Outcome of the Supabase storage `DELETE` call in `delete_mission_image`:
a 200 response, a non-200 response, or a raised exception. -/
inductive StorageDeleteOutcome where
  | ok
  | httpStatus : ℕ → StorageDeleteOutcome
  | exn : String → StorageDeleteOutcome
deriving DecidableEq

/-- `DELETE /mission-images/{image_id}`: 404 when the image is missing, 400
when its mission is COMPLETED; otherwise the storage object deletion is
attempted and its outcome ignored — a non-200 response is not checked and
an exception is swallowed by `except Exception: pass` — and the database
row is deleted and the request succeeds. -/
def delete_mission_image (images : List MissionImage) (missions : List Mission)
    (image_id : ℕ) (storage : StorageDeleteOutcome) :
    List MissionImage × ApiOutcome String :=
  match images.find? (fun i => i.id == image_id) with
  | none => (images, ApiOutcome.httpError 404)
  | some img =>
    match missions.find? (fun m => m.id == img.mission_id) with
    | some mission =>
      if mission.status = "COMPLETED" then (images, ApiOutcome.httpError 400)
      else
        match storage with
        | _ => (images.filter (fun i => i.id != image_id),
                ApiOutcome.ok "Mission image deleted")
    | none =>
      match storage with
      | _ => (images.filter (fun i => i.id != image_id),
              ApiOutcome.ok "Mission image deleted")

/-- C6: deleting an existing mission image whose mission is not COMPLETED
deletes the database row and succeeds for EVERY storage outcome — a
storage exception or a non-200 storage response never prevents the
database deletion. -/
theorem delete_mission_image_best_effort (images : List MissionImage)
    (missions : List Mission) (image_id : ℕ) (storage : StorageDeleteOutcome)
    (img : MissionImage) (himg : images.find? (fun i => i.id == image_id) = some img)
    (hmission : ∀ m ∈ missions, m.id = img.mission_id → m.status ≠ "COMPLETED") :
    delete_mission_image images missions image_id storage =
      (images.filter (fun i => i.id != image_id),
       ApiOutcome.ok "Mission image deleted") := by
  rcases hm : missions.find? (fun m => m.id == img.mission_id) with _ | mission
  · simp [delete_mission_image, himg, hm]
  · have hmem := List.mem_of_find?_eq_some hm
    have hid : mission.id = img.mission_id := by
      have := List.find?_some hm
      simpa using this
    have hnc := hmission mission hmem hid
    simp [delete_mission_image, himg, hm, hnc]

/-- A concrete mission that is not completed. -/
def missionP : Mission := ⟨5, "PENDING"⟩

/-- A concrete image belonging to `missionP`. -/
def imageA : MissionImage := ⟨1, 5, "images/a.jpg"⟩

/-- Witness for C6: the image row is deleted and the request succeeds both
when the storage call raises and when it returns HTTP 500. -/
theorem delete_mission_image_best_effort_witness :
    delete_mission_image [imageA] [missionP] 1 (StorageDeleteOutcome.exn "boom") =
      ([], ApiOutcome.ok "Mission image deleted") ∧
    delete_mission_image [imageA] [missionP] 1 (StorageDeleteOutcome.httpStatus 500) =
      ([], ApiOutcome.ok "Mission image deleted") := by
  constructor
  · rw [delete_mission_image_best_effort [imageA] [missionP] 1
      (StorageDeleteOutcome.exn "boom") imageA rfl
      (by intro m hm _; simp [missionP] at hm; simp [hm, missionP])]
    simp [imageA]
  · rw [delete_mission_image_best_effort [imageA] [missionP] 1
      (StorageDeleteOutcome.httpStatus 500) imageA rfl
      (by intro m hm _; simp [missionP] at hm; simp [hm, missionP])]
    simp [imageA]

/-- A detection bounding box (`x`, `y`, `width`, `height`). -/
structure BBox where
  x : ℚ
  y : ℚ
  width : ℚ
  height : ℚ
deriving DecidableEq

/-- `CVModelService.CLASS_NAMES`: the class-id → name mapping of the
trained YOLO model. -/
def CLASS_NAMES : ℕ → Option String := fun i =>
  match i with
  | 0 => some "Clean"
  | 1 => some "Dusty"
  | 2 => some "Electrical-damage"
  | 3 => some "Physical-Damage"
  | 4 => some "Snow-Covered"
  | _ => none

/-- The class name of a detection:
`self.CLASS_NAMES.get(class_id, f"class_{class_id}")`. -/
def className (class_id : ℕ) : String :=
  (CLASS_NAMES class_id).getD ("class_" ++ toString class_id)

/-- One detection dict as built by `CVModelService.detect`: the class id,
its name via `CLASS_NAMES`, the confidence rounded to 4 decimals, and the
bounding box (`None` for classification-only results). -/
structure Detection where
  class_id : ℕ
  class_name : String
  confidence : ℚ
  bbox : Option BBox
deriving DecidableEq

/-- Build a detection dict from the raw model output, as
`CVModelService.detect` does. -/
def mkDetection (class_id : ℕ) (confidence : ℚ) (bbox : Option BBox) : Detection :=
  { class_id := class_id
    class_name := className class_id
    confidence := round4 confidence
    bbox := bbox }

/-- The `InspectionStatus` enum (`PASS_` has value `"PASS"`). -/
inductive InspectionStatus where
  | PASS_
  | FAIL
  | REVIEW
deriving DecidableEq

/-- `InspectionStatus.value`. -/
def statusValue : InspectionStatus → String
  | InspectionStatus.PASS_ => "PASS"
  | InspectionStatus.FAIL => "FAIL"
  | InspectionStatus.REVIEW => "REVIEW"

/-- One row of the `inspection_results` table as written by the analyze
endpoint. -/
structure InspectionResult where
  mission_id : ℕ
  mission_image_id : Option ℕ
  panel_id : Option ℕ
  status : InspectionStatus
  defect_type : Option String
  confidence : Option ℚ
  bbox : Option BBox
  notes : Option String
  model_version : Option String
deriving DecidableEq

/-- `cv_service.model_version`. -/
def model_version_const : String := "yolov8-solar-v1"

/-- The inspection row written for one detection: PASS when the detected
class name is `"Clean"`, FAIL otherwise. -/
def mkInspection (img : MissionImage) (d : Detection) : InspectionResult :=
  { mission_id := img.mission_id
    mission_image_id := some img.id
    panel_id := none
    status := if d.class_name = "Clean" then InspectionStatus.PASS_
              else InspectionStatus.FAIL
    defect_type := some d.class_name
    confidence := some d.confidence
    bbox := d.bbox
    notes := none
    model_version := some model_version_const }

/-- One entry of the analyze response's `detections` list, rebuilt from the
stored inspection row. -/
structure DetectionOut where
  class_name : Option String
  confidence : Option ℚ
  bbox : Option BBox
  status : String
deriving DecidableEq

/-- The analyze response payload. -/
structure AnalysisResponse where
  image_id : ℕ
  storage_path : String
  detections : List DetectionOut
  total_detections : ℕ
deriving DecidableEq

/-- `POST /mission-images/{image_id}/analyze`: 404 when the image row is
missing; 503 when the CV model is not loaded (`cv_service.is_available()`);
404 when the storage download is not a 200; 500 when detection raises;
otherwise one inspection row per detection is added to the table and the
response echoes the stored rows.  `fetchStatus` is the storage download's
HTTP status and `detectResult` the outcome of `cv_service.detect`. -/
def analyze_mission_image (images : List MissionImage)
    (inspections : List InspectionResult) (cv_available : Bool)
    (fetchStatus : ℕ) (detectResult : Except String (List Detection))
    (image_id : ℕ) : List InspectionResult × ApiOutcome AnalysisResponse :=
  match images.find? (fun i => i.id == image_id) with
  | none => (inspections, ApiOutcome.httpError 404)
  | some img =>
    if cv_available = false then (inspections, ApiOutcome.httpError 503)
    else if fetchStatus ≠ 200 then (inspections, ApiOutcome.httpError 404)
    else
      match detectResult with
      | Except.error _ => (inspections, ApiOutcome.httpError 500)
      | Except.ok detections =>
        let rows := detections.map (mkInspection img)
        (inspections ++ rows,
         ApiOutcome.ok
           { image_id := img.id
             storage_path := img.storage_path
             detections := rows.map (fun r =>
               { class_name := r.defect_type
                 confidence := r.confidence
                 bbox := r.bbox
                 status := statusValue r.status })
             total_detections := rows.length })

/-- C7: the analyze endpoint fails with 404 when no mission image with the
id exists, and with 503 when the image exists but the CV model is not
loaded; in either failure case the `inspection_results` table is unchanged
(no rows written). -/
theorem analyze_failure_no_write (images : List MissionImage)
    (inspections : List InspectionResult) (cv_available : Bool) (fetchStatus : ℕ)
    (detectResult : Except String (List Detection)) (image_id : ℕ) :
    (images.find? (fun i => i.id == image_id) = none →
      analyze_mission_image images inspections cv_available fetchStatus detectResult
        image_id = (inspections, ApiOutcome.httpError 404)) ∧
    (∀ img, images.find? (fun i => i.id == image_id) = some img →
      cv_available = false →
      analyze_mission_image images inspections cv_available fetchStatus detectResult
        image_id = (inspections, ApiOutcome.httpError 503)) := by
  constructor
  · intro h
    simp [analyze_mission_image, h]
  · intro img himg hcv
    simp [analyze_mission_image, himg, hcv]

/-- Witness for C7: a missing image id 404s with an untouched table; an
existing image with the CV model unavailable 503s with an untouched table. -/
theorem analyze_failure_no_write_witness :
    analyze_mission_image [] [] true 200 (Except.ok []) 1 =
      ([], ApiOutcome.httpError 404) ∧
    analyze_mission_image [imageA] [] false 200 (Except.ok []) 1 =
      ([], ApiOutcome.httpError 503) :=
  ⟨(analyze_failure_no_write [] [] true 200 (Except.ok []) 1).1 rfl,
   (analyze_failure_no_write [imageA] [] false 200 (Except.ok []) 1).2 imageA rfl rfl⟩

/-- C9: every inspection row stored by the analyze endpoint has status PASS
exactly when the detection's class name is `"Clean"` — equivalently, class
id 0; a detection of any other class (`Dusty`, `Electrical-damage`,
`Physical-Damage`, `Snow-Covered`, or an unknown id mapped to
`"class_{id}"`) is stored with status FAIL. -/
theorem analyze_pass_iff_clean (images : List MissionImage)
    (inspections : List InspectionResult) (fetchStatus : ℕ)
    (detections : List Detection) (image_id : ℕ) (img : MissionImage)
    (himg : images.find? (fun i => i.id == image_id) = some img)
    (hfetch : fetchStatus = 200) :
    (analyze_mission_image images inspections true fetchStatus
        (Except.ok detections) image_id).1 =
      inspections ++ detections.map (mkInspection img) ∧
    (∀ d ∈ detections,
      ((mkInspection img d).status = InspectionStatus.PASS_ ↔
        d.class_name = "Clean") ∧
      ((mkInspection img d).status = InspectionStatus.PASS_ ∨
        (mkInspection img d).status = InspectionStatus.FAIL)) ∧
    (∀ class_id : ℕ, className class_id = "Clean" ↔ class_id = 0) := by
  refine ⟨by simp [analyze_mission_image, himg, hfetch], ?_, ?_⟩
  · intro d _
    constructor
    · by_cases h : d.class_name = "Clean" <;> simp [mkInspection, h]
    · by_cases h : d.class_name = "Clean" <;> simp [mkInspection, h]
  · intro class_id
    match class_id with
    | 0 => simp [className, CLASS_NAMES]
    | 1 => simp [className, CLASS_NAMES]
    | 2 => simp [className, CLASS_NAMES]
    | 3 => simp [className, CLASS_NAMES]
    | 4 => simp [className, CLASS_NAMES]
    | (n + 5) =>
      constructor
      · intro h
        exfalso
        have hn : className (n + 5) = "class_" ++ toString (n + 5) := rfl
        rw [hn] at h
        have hlen := congrArg String.length h
        rw [String.length_append] at hlen
        have h6 : ("class_" : String).length = 6 := rfl
        have h5 : ("Clean" : String).length = 5 := rfl
        rw [h6, h5] at hlen
        omega
      · intro h
        cases h

/-- Three concrete detections: a Clean one, a Physical-Damage one, and one
with an unknown class id 7. -/
def dsC9 : List Detection :=
  [mkDetection 0 (9 / 10) none, mkDetection 3 (4 / 5) none,
   mkDetection 7 (1 / 2) none]

/-- Witness for C9 on a concrete analyze call storing three rows. -/
theorem analyze_pass_iff_clean_witness :
    (analyze_mission_image [imageA] [] true 200 (Except.ok dsC9) 1).1 =
      [] ++ dsC9.map (mkInspection imageA) ∧
    (∀ d ∈ dsC9,
      ((mkInspection imageA d).status = InspectionStatus.PASS_ ↔
        d.class_name = "Clean") ∧
      ((mkInspection imageA d).status = InspectionStatus.PASS_ ∨
        (mkInspection imageA d).status = InspectionStatus.FAIL)) ∧
    (∀ class_id : ℕ, className class_id = "Clean" ↔ class_id = 0) :=
  analyze_pass_iff_clean [imageA] [] 200 dsC9 1 imageA rfl rfl
